import Mathlib

/-
  Shallow embedding of the GestureFlow particle simulation
  (src/components/Experience.tsx, src/constants.ts, src/types.ts).

  Experience.tsx contains three successive variants of the `Particles`
  component separated by document markers:
    * first variant  : lines   1-344
    * second variant : lines 346-620  (gesture blending, chaos, alignment)
    * third variant  : lines 622-897  (air drawing, compression, silhouette)
  The per-frame `useFrame` bodies are translated here as pure per-particle
  step functions over exact rationals.  JavaScript `Math.sqrt`, `Math.sin`
  and `Math.cos` are passed in as explicit function parameters; theorems
  that depend on the meaning of `sqrt` carry local correctness hypotheses
  for the values actually used.  `Math.random()` draws are passed in as an
  explicit stream, so that (non-)dependence on randomness is expressible.

  A second, small embedding over `Flt := Option ℚ` (where `none` stands
  for a non-finite double: NaN or ±Infinity) is used for the claims about
  division-by-zero and NaN handling, since exact rational arithmetic
  cannot represent the JavaScript behaviour `0/0 = NaN`.
-/

namespace GestureFlow

/-- Three-component vector of exact rationals, standing for the (x,y,z)
triples of positions, velocities and rgb colors in the source. -/
structure Vec3 where
  x : ℚ
  y : ℚ
  z : ℚ
  deriving DecidableEq, Repr

instance : Add Vec3 := ⟨fun a b => ⟨a.x + b.x, a.y + b.y, a.z + b.z⟩⟩

instance : Sub Vec3 := ⟨fun a b => ⟨a.x - b.x, a.y - b.y, a.z - b.z⟩⟩

instance : Zero Vec3 := ⟨⟨0, 0, 0⟩⟩

/-- Componentwise scaling `c * v`. -/
def Vec3.scale (c : ℚ) (v : Vec3) : Vec3 := ⟨c * v.x, c * v.y, c * v.z⟩

/-- Squared Euclidean norm `x*x + y*y + z*z`, as written in the source. -/
def Vec3.normSq (v : Vec3) : ℚ := v.x * v.x + v.y * v.y + v.z * v.z

theorem Vec3.add_def (a b : Vec3) :
    a + b = ⟨a.x + b.x, a.y + b.y, a.z + b.z⟩ := rfl

theorem Vec3.sub_def (a b : Vec3) :
    a - b = ⟨a.x - b.x, a.y - b.y, a.z - b.z⟩ := rfl

theorem Vec3.zero_def : (0 : Vec3) = ⟨0, 0, 0⟩ := rfl

theorem Vec3.add_scale_def (v : Vec3) (k : ℚ) (d : Vec3) :
    v + Vec3.scale k d = ⟨v.x + k * d.x, v.y + k * d.y, v.z + k * d.z⟩ := rfl

theorem Vec3.sub_scale_def (v : Vec3) (k : ℚ) (d : Vec3) :
    v - Vec3.scale k d = ⟨v.x - k * d.x, v.y - k * d.y, v.z - k * d.z⟩ := rfl

/-- `THREE.MathUtils.lerp(x, y, t) = x + (y - x) * t`. -/
def jlerp (x y t : ℚ) : ℚ := x + (y - x) * t

/-- `Math.round` (JavaScript rounds half-up, i.e. `⌊x + 1/2⌋`). -/
def jround (q : ℚ) : ℚ := ((⌊q + 1/2⌋ : ℤ) : ℚ)

/-- `Math.sign` (zero maps to zero). -/
def jsign (q : ℚ) : ℚ := if 0 < q then 1 else if q < 0 then -1 else 0

/-- JavaScript `a?.f || default`: an absent OR zero (falsy) value falls
back to the default, exactly as `aiConfig?.repelForce || PHYSICS.repelForce`
behaves in the source. -/
def jsOrQ (o : Option ℚ) (d : ℚ) : ℚ :=
  match o with
  | some q => if q = 0 then d else q
  | none => d

/-- `THREE.MathUtils.clamp(v, 0, 1)`. -/
def clamp01 (q : ℚ) : ℚ := max 0 (min q 1)

/-- `hue2rgb` helper of `THREE.Color.setHSL`. -/
def hue2rgb (p q t0 : ℚ) : ℚ :=
  let t1 := if t0 < 0 then t0 + 1 else t0
  let t := if 1 < t1 then t1 - 1 else t1
  if t < 1/6 then p + (q - p) * 6 * t
  else if t < 1/2 then q
  else if t < 2/3 then p + (q - p) * 6 * (2/3 - t)
  else p

/-- `THREE.Color.setHSL` (hue wrapped by `euclideanModulo(h,1) = h - ⌊h⌋`,
saturation and lightness clamped to [0,1]). -/
def setHSL (h0 s0 l0 : ℚ) : Vec3 :=
  let h := h0 - ((⌊h0⌋ : ℤ) : ℚ)
  let s := clamp01 s0
  let l := clamp01 l0
  if s = 0 then ⟨l, l, l⟩
  else
    let p := if l ≤ 1/2 then l * (1 + s) else l + s - l * s
    let q := 2 * l - p
    ⟨hue2rgb q p (h + 1/3), hue2rgb q p h, hue2rgb q p (h - 1/3)⟩

/-- `THREE.Color.lerp(c, alpha)`: each channel moves toward `c` by `alpha`. -/
def colorLerp (c t : Vec3) (a : ℚ) : Vec3 :=
  ⟨jlerp c.x t.x a, jlerp c.y t.y a, jlerp c.z t.z a⟩

/-! ## Constants (src/constants.ts) -/

namespace PHYSICS

def friction : ℚ := 96/100

def maxSpeed : ℚ := 6/10

def attractForce : ℚ := 3/100

def attractFalloff : ℚ := 8

def repelForce : ℚ := 3/10

def repelFalloff : ℚ := 9

def compressionThreshold : ℚ := 7/2

def compressionForce : ℚ := 15/100

def vortexSpin : ℚ := 2/10

def returnHomeForce : ℚ := 4/1000

def boundaryLimit : ℚ := 40

def silhouetteSmoothing : ℚ := 15/100

end PHYSICS

namespace PARTICLE_VISUALS

def baseSize : ℚ := 2/1000

def hueRangeMin : ℚ := 55/100

def hueRangeMax : ℚ := 9/10

end PARTICLE_VISUALS

/-! ## Data model (src/types.ts, unnamed types variant with gestures) -/

inductive AppMode
  | PLAYGROUND
  | AIR_DRAWING
  | SILHOUETTE
  | AUDIO_REACTIVE
  | AI_ORACLE
  deriving DecidableEq, Repr

inductive HandGesture
  | NONE
  | PEACE
  | ROCK
  | THUMBS_UP
  | POINTER
  | OK
  deriving DecidableEq, Repr

structure HandData where
  landmarks : List Vec3
  palm : Vec3
  isRight : Bool
  isOpen : Bool
  isPinching : Bool
  gesture : HandGesture
  deriving DecidableEq, Repr

/-- SceneConfig with colors already converted to rgb triples (the source
stores them as hex strings and parses them through `THREE.Color`). -/
structure SceneConfig where
  primary : Vec3
  secondary : Vec3
  accent : Vec3
  friction : ℚ
  attractForce : ℚ
  repelForce : ℚ
  maxSpeed : ℚ
  particleSize : ℚ
  shapeVertices : Option (List Vec3)
  deriving DecidableEq, Repr

/-- Per-particle state of the second-variant kernel: position, velocity,
home position (`initialPositions`), displayed color and size. -/
structure PState where
  pos : Vec3
  vel : Vec3
  home : Vec3
  col : Vec3
  size : ℚ
  deriving DecidableEq, Repr

/-- Per-frame inputs and blended scalars consumed by the second-variant
per-particle loop (hands snapshot, mode, optional scene config, audio
level, and the current values of the smoothed refs). -/
structure Params2 where
  hands : List HandData
  mode : AppMode
  cfg : Option SceneConfig
  audioData : ℚ
  activeFriction : ℚ
  activeAttract : ℚ
  timeScale : ℚ
  chaosFactor : ℚ
  alignmentFactor : ℚ
  deriving DecidableEq, Repr

/-! ## Second-variant kernel (Experience.tsx lines 457-561) -/

/-- Scaled palm position of the second variant
(`h.palm.x * 5, h.palm.y * 3, h.palm.z * 5`, line 490). -/
def scaledPalm2 (h : HandData) : Vec3 := ⟨h.palm.x * 5, h.palm.y * 3, h.palm.z * 5⟩

/-- One iteration of the hand-interaction loop (lines 489-503):
attraction for open or POINTER hands within the attract falloff (with a
4x multiplier for POINTER), otherwise repulsion for non-pinching hands
within the repel falloff.  `sq` models `Math.sqrt`. -/
def handForce2 (sq : ℚ → ℚ) (attract : ℚ) (cfg : Option SceneConfig)
    (p : Vec3) (v : Vec3) (h : HandData) : Vec3 :=
  let hp := scaledPalm2 h
  let d := hp - p
  let d2 := d.normSq
  if (h.isOpen = true ∨ h.gesture = HandGesture.POINTER) ∧
      d2 < PHYSICS.attractFalloff * PHYSICS.attractFalloff then
    let dist := sq d2
    let force := (PHYSICS.attractFalloff - dist) * attract *
      (if h.gesture = HandGesture.POINTER then 4 else 1)
    ⟨v.x + d.x / dist * force, v.y + d.y / dist * force, v.z + d.z / dist * force⟩
  else if h.isPinching = false ∧ d2 < PHYSICS.repelFalloff * PHYSICS.repelFalloff then
    let dist := sq d2
    let force := (PHYSICS.repelFalloff - dist) *
      jsOrQ (cfg.map SceneConfig.repelForce) PHYSICS.repelForce
    ⟨v.x - d.x / dist * force, v.y - d.y / dist * force, v.z - d.z / dist * force⟩
  else v

/-- The `for (const h of hands)` loop (line 489) folded over the hand list. -/
def handPhase2 (sq : ℚ → ℚ) (attract : ℚ) (cfg : Option SceneConfig)
    (p : Vec3) (v : Vec3) (hands : List HandData) : Vec3 :=
  hands.foldl (handForce2 sq attract cfg p) v

/-- Home/shape attraction (lines 505-518): only in PLAYGROUND or
AI_ORACLE mode; toward vertex `i % length` with gain 0.015 when a
non-empty shape vertex list is active, else toward the particle's home
with gain `returnHomeForce`. -/
def homePhase2 (mode : AppMode) (cfg : Option SceneConfig) (i : ℕ)
    (home : Vec3) (p : Vec3) (v : Vec3) : Vec3 :=
  if mode = AppMode.PLAYGROUND ∨ mode = AppMode.AI_ORACLE then
    match cfg.bind SceneConfig.shapeVertices with
    | some (v0 :: rest) =>
      let vs := v0 :: rest
      let t := vs.getD (i % vs.length) 0
      ⟨v.x + (t.x - p.x) * (15/1000), v.y + (t.y - p.y) * (15/1000),
        v.z + (t.z - p.z) * (15/1000)⟩
    | _ =>
      ⟨v.x + (home.x - p.x) * PHYSICS.returnHomeForce,
        v.y + (home.y - p.y) * PHYSICS.returnHomeForce,
        v.z + (home.z - p.z) * PHYSICS.returnHomeForce⟩
  else v

/-- Chaos jitter (lines 520-524), active only when the blended chaos
factor exceeds 0.1; `rand` supplies the three `Math.random()` draws. -/
def chaosPhase2 (rand : Fin 3 → ℚ) (chaos : ℚ) (v : Vec3) : Vec3 :=
  if 1/10 < chaos then
    ⟨v.x + (rand 0 - 1/2) * chaos * (4/10),
      v.y + (rand 1 - 1/2) * chaos * (4/10),
      v.z + (rand 2 - 1/2) * chaos * (4/10)⟩
  else v

/-- Alignment grid snap (lines 529-537), a positional lerp toward the
nearest point of a grid of cell size 1.2, active when the blended
alignment factor exceeds 0.1. -/
def alignPhase2 (alignment : ℚ) (p : Vec3) : Vec3 :=
  if 1/10 < alignment then
    let gridSize : ℚ := 12/10
    let tx := jround (p.x / gridSize) * gridSize
    let ty := jround (p.y / gridSize) * gridSize
    let tz := jround (p.z / gridSize) * gridSize
    ⟨jlerp p.x tx (alignment * 15/100), jlerp p.y ty (alignment * 15/100),
      jlerp p.z tz (alignment * 15/100)⟩
  else p

/-- One boundary axis (lines 539-542): if `|x| > 40` the position is set
to `sign(x) * 40` and the velocity component is multiplied by `-0.5`. -/
def boundAxis2 (x vx : ℚ) : ℚ × ℚ :=
  if PHYSICS.boundaryLimit < |x| then (jsign x * PHYSICS.boundaryLimit, vx * (-(1/2)))
  else (x, vx)

/-- Boundary handling on all three axes (lines 539-542). -/
def boundary2 (p v : Vec3) : Vec3 × Vec3 :=
  let ax := boundAxis2 p.x v.x
  let ay := boundAxis2 p.y v.y
  let az := boundAxis2 p.z v.z
  (⟨ax.1, ay.1, az.1⟩, ⟨ax.2, ay.2, az.2⟩)

/-- Color and size update (lines 547-556). -/
def color2 (sq : ℚ → ℚ) (cfg : Option SceneConfig) (audio : ℚ)
    (vel col : Vec3) (size : ℚ) : Vec3 × ℚ :=
  let currentSpeed := sq vel.normSq
  let hueShift := min (currentSpeed * 2) 1
  let hVal := PARTICLE_VISUALS.hueRangeMin +
    (PARTICLE_VISUALS.hueRangeMax - PARTICLE_VISUALS.hueRangeMin) * hueShift
  let target0 := setHSL hVal (8/10) (1/2)
  let target := match cfg with
    | some c => colorLerp target0 c.primary (1/2)
    | none => target0
  let sizeTarget := jsOrQ (cfg.map SceneConfig.particleSize) PARTICLE_VISUALS.baseSize +
    audio * (1/10)
  (colorLerp col target (1/10), jlerp size sizeTarget (1/10))

/-- One per-particle tick of the second-variant kernel (lines 484-556):
hand forces, home/shape attraction, chaos jitter, friction, time-scaled
advance, alignment snap, boundary clamp, then color/size smoothing.
The home position is read but never written, mirroring the source, which
never stores into `initialPositions`. -/
def tick2Particle (sq : ℚ → ℚ) (rand : Fin 3 → ℚ) (P : Params2) (i : ℕ)
    (s : PState) : PState :=
  let v0 := handPhase2 sq P.activeAttract P.cfg s.pos s.vel P.hands
  let v1 := homePhase2 P.mode P.cfg i s.home s.pos v0
  let v2 := chaosPhase2 rand P.chaosFactor v1
  let v3 := ⟨v2.x * P.activeFriction, v2.y * P.activeFriction, v2.z * P.activeFriction⟩
  let p1 : Vec3 := ⟨s.pos.x + v3.x * P.timeScale, s.pos.y + v3.y * P.timeScale,
    s.pos.z + v3.z * P.timeScale⟩
  let p2 := alignPhase2 P.alignmentFactor p1
  let pv := boundary2 p2 v3
  let cs := color2 sq P.cfg P.audioData pv.2 s.col s.size
  { pos := pv.1, vel := pv.2, home := s.home, col := cs.1, size := cs.2 }

/-- Gesture-to-target computation of the second variant (lines 470-472):
three independent conditionals on the active gesture. -/
def gestureTargets (g : HandGesture) : ℚ × ℚ × ℚ :=
  (if g = HandGesture.PEACE then 8/100 else 1,
    if g = HandGesture.ROCK then 1 else 0,
    if g = HandGesture.THUMBS_UP then 1 else 0)

/-- Active gesture selection (lines 467-468): `hands[0].gesture` whenever
at least one hand is present, otherwise NONE. -/
def activeGesture2 (hands : List HandData) : HandGesture :=
  match hands with
  | [] => HandGesture.NONE
  | h :: _ => h.gesture

/-- Per-frame blended-parameter update (lines 467-476): the time-scale,
chaos and alignment refs each move toward their gesture-derived target by
`lerp` with factor 0.05. -/
def updateBlend2 (hands : List HandData) (ts ch al : ℚ) : ℚ × ℚ × ℚ :=
  let t := gestureTargets (activeGesture2 hands)
  (jlerp ts t.1 (5/100), jlerp ch t.2.1 (5/100), jlerp al t.2.2 (5/100))

/-! ## Third-variant kernel (Experience.tsx lines 684-828) -/

inductive DrawingStyle
  | NEON
  | SMOKE
  | TRAIL
  | PLASMA
  deriving DecidableEq, Repr

/-- The decay and jitter fields of `DRAWING_CONFIG` (constants.ts); the
color/size fields only feed the visual attributes, which the third-variant
embedding omits (they never feed back into position or velocity). -/
structure DrawCfg where
  decay : ℚ
  jitter : ℚ
  deriving DecidableEq, Repr

def DRAWING_CONFIG : DrawingStyle → DrawCfg
  | DrawingStyle.NEON => ⟨99/100, 2/100⟩
  | DrawingStyle.SMOKE => ⟨94/100, 8/100⟩
  | DrawingStyle.TRAIL => ⟨995/1000, 1/100⟩
  | DrawingStyle.PLASMA => ⟨96/100, 5/100⟩

/-- Scaled palm position of the third variant
(`h.palm.x * 10, h.palm.y * 8, h.palm.z * 10`, lines 728-729 and 787). -/
def scaledPalm3 (h : HandData) : Vec3 := ⟨h.palm.x * 10, h.palm.y * 8, h.palm.z * 10⟩

/-- Landmark transform of the third variant (lines 720 and 755-757):
`(((1-x)*2-1)*10, -(y*2-1)*8, z*(-50))`. -/
def lmTransform3 (lm : Vec3) : Vec3 :=
  ⟨((1 - lm.x) * 2 - 1) * 10, -(lm.y * 2 - 1) * 8, lm.z * (-50)⟩

/-- Dedicated pool of particles reserved for drawing (line 688). -/
def drawPoolSize : ℕ := 8000

/-- Particle state of the third variant: position, velocity, home
position, and the drawing lifetime timer for that particle. -/
structure P3State where
  pos : Vec3
  vel : Vec3
  home : Vec3
  timer : ℚ
  deriving DecidableEq, Repr

/-- Per-frame context of the third-variant loop. `smoothedLMs` is the
smoothed landmark buffer and `drawIdx` the `drawIndex` ref at loop entry. -/
structure Params3 where
  hands : List HandData
  mode : AppMode
  cfg : Option SceneConfig
  drawStyle : DrawingStyle
  time : ℚ
  smoothedLMs : List Vec3
  drawIdx : ℕ
  deriving DecidableEq, Repr

/-- Compression check (lines 726-732): with exactly two hands whose
scaled palms are closer than the compression threshold, the midpoint is
active; otherwise no compression. -/
def compressing3 (sq : ℚ → ℚ) (hands : List HandData) : Option Vec3 :=
  match hands with
  | [h1, h2] =>
    let a := scaledPalm3 h1
    let b := scaledPalm3 h2
    if sq ((a - b).normSq) < PHYSICS.compressionThreshold then
      some (Vec3.scale (1/2) (a + b))
    else none
  | _ => none

/-- One step of the drawing `hands.forEach` (lines 752-766): a pinching
or pointing hand claims the next pool slot; if this particle is that
slot it is teleported to the draw target with zero velocity and a fresh
timer, and the shared `drawIndex` advances. -/
def drawClaim3 (i : ℕ)
    (st : Vec3 × Vec3 × ℚ × ℕ) (h : HandData) : Vec3 × Vec3 × ℚ × ℕ :=
  if h.isPinching = true ∨ h.gesture = HandGesture.POINTER then
    let nextIdx := (st.2.2.2 + 1) % drawPoolSize
    let target : Vec3 :=
      if h.gesture = HandGesture.POINTER then lmTransform3 (h.landmarks.getD 8 0)
      else scaledPalm3 h
    if i = nextIdx then (target, 0, 1, nextIdx) else st
  else st

/-- The force/branch part of the third-variant per-particle body
(lines 739-801), before the common speed clamp and advance.  The drawing
branch handles pool particles in AIR_DRAWING mode; otherwise compression,
silhouette tracking, or the default hand-attraction/home branch applies.
When the source reads `aiConfig.shapeVertices[i % length]` on an empty
list it throws; here the access is modelled by `getD`, which no theorem
relies on.  Color and size mapping (lines 810-825) is omitted: it reads
but never writes position, velocity or timer. -/
def forces3 (sq jsin jcos : ℚ → ℚ) (rand : Fin 3 → ℚ) (C : Params3) (i : ℕ)
    (s : P3State) : P3State :=
  if C.mode = AppMode.AIR_DRAWING ∧ i < drawPoolSize then
    let config := DRAWING_CONFIG C.drawStyle
    let pt : Vec3 × ℚ :=
      if 0 < s.timer then
        (⟨s.pos.x + (rand 0 - 1/2) * config.jitter,
          s.pos.y + (rand 1 - 1/2) * config.jitter,
          s.pos.z + (rand 2 - 1/2) * config.jitter⟩, s.timer * config.decay)
      else (⟨s.pos.x, s.pos.y, -100⟩, s.timer)
    let st := C.hands.foldl (drawClaim3 i) (pt.1, s.vel, pt.2, C.drawIdx)
    { pos := st.1, vel := st.2.1, home := s.home, timer := st.2.2.1 }
  else
    match compressing3 sq C.hands with
    | some mid =>
      let d3 := mid - s.pos
      let d := sq d3.normSq
      if d < 8 then
        let f := (8 - d) * PHYSICS.compressionForce
        let vx := s.vel.x + d3.x / d * f + jsin (C.time * 10 + s.pos.y) * PHYSICS.vortexSpin
        let vy := s.vel.y + d3.y / d * f
        let vz := s.vel.z + d3.z / d * f + jcos (C.time * 10 + s.pos.x) * PHYSICS.vortexSpin
        { pos := s.pos, vel := ⟨vx * (85/100), vy * (85/100), vz * (85/100)⟩,
          home := s.home, timer := s.timer }
      else { s with }
    | none =>
      if C.mode = AppMode.SILHOUETTE ∧ C.hands ≠ [] then
        let lmIdx := i % (C.hands.length * 21)
        let t := C.smoothedLMs.getD lmIdx 0
        let v1 : Vec3 := ⟨s.vel.x + (t.x - s.pos.x) * (15/1000),
          s.vel.y + (t.y - s.pos.y) * (15/1000),
          s.vel.z + (t.z - s.pos.z) * (15/1000)⟩
        { pos := s.pos, vel := ⟨v1.x * (92/100), v1.y * (92/100), v1.z * (92/100)⟩,
          home := s.home, timer := s.timer }
      else
        let v1 := C.hands.foldl (fun (v : Vec3) h =>
          let d3 := scaledPalm3 h - s.pos
          let d2 := d3.normSq
          if h.isOpen = true ∧ d2 < 64 then
            let d := sq d2
            ⟨v.x + d3.x / d * PHYSICS.attractForce,
              v.y + d3.y / d * PHYSICS.attractForce,
              v.z + d3.z / d * PHYSICS.attractForce⟩
          else v) s.vel
        let homeT : Vec3 :=
          match C.cfg.bind SceneConfig.shapeVertices with
          | some vs => vs.getD (i % vs.length) 0
          | none => s.home
        let v2 : Vec3 := ⟨v1.x + (homeT.x - s.pos.x) * PHYSICS.returnHomeForce,
          v1.y + (homeT.y - s.pos.y) * PHYSICS.returnHomeForce,
          v1.z + (homeT.z - s.pos.z) * PHYSICS.returnHomeForce⟩
        { pos := s.pos, vel := ⟨v2.x * PHYSICS.friction, v2.y * PHYSICS.friction,
            v2.z * PHYSICS.friction⟩, home := s.home, timer := s.timer }

/-- One per-particle tick of the third-variant kernel: branch forces,
then the common speed clamp (lines 803-804) and position advance
(line 805).  There is no boundary handling in this variant. -/
def tick3Particle (sq jsin jcos : ℚ → ℚ) (rand : Fin 3 → ℚ) (C : Params3) (i : ℕ)
    (s : P3State) : P3State :=
  let m := forces3 sq jsin jcos rand C i s
  let speed := sq m.vel.normSq
  let v := if PHYSICS.maxSpeed < speed then Vec3.scale (PHYSICS.maxSpeed / speed) m.vel
    else m.vel
  { pos := m.pos + v, vel := v, home := m.home, timer := m.timer }

/-! ## Non-finite-aware embedding for the NaN claims

`Flt` is a double that is either a finite exact value (`some q`) or a
non-finite value (`none`, standing for NaN or ±Infinity).  Arithmetic
propagates non-finiteness; division by zero produces a non-finite value
(JavaScript: `0/0 = NaN`, `x/0 = ±Infinity`); comparisons against a
non-finite value are false, as every NaN comparison is in JavaScript. -/

abbrev Flt := Option ℚ

def fadd (a b : Flt) : Flt :=
  match a, b with
  | some x, some y => some (x + y)
  | _, _ => none

def fsub (a b : Flt) : Flt :=
  match a, b with
  | some x, some y => some (x - y)
  | _, _ => none

def fmul (a b : Flt) : Flt :=
  match a, b with
  | some x, some y => some (x * y)
  | _, _ => none

def fdiv (a b : Flt) : Flt :=
  match a, b with
  | some x, some y => if y = 0 then none else some (x / y)
  | _, _ => none

/-- `Math.sqrt` over `Flt` (negative arguments give NaN); finite
nonnegative arguments defer to the `sq` model. -/
def fsqrt (sq : ℚ → ℚ) (a : Flt) : Flt :=
  match a with
  | some q => if q < 0 then none else some (sq q)
  | none => none

/-- A strict `<` comparison against a finite constant; false on NaN. -/
def fltLt (a : Flt) (c : ℚ) : Bool :=
  match a with
  | some q => decide (q < c)
  | none => false

/-- `Math.abs(x) > c`; false on NaN. -/
def fabsGt (a : Flt) (c : ℚ) : Bool :=
  match a with
  | some q => decide (c < |q|)
  | none => false

/-- `Math.sign` over `Flt`. -/
def fsign (a : Flt) : Flt :=
  match a with
  | some q => some (jsign q)
  | none => none

/-- `Math.round` over `Flt`. -/
def fround (a : Flt) : Flt :=
  match a with
  | some q => some (jround q)
  | none => none

structure FVec3 where
  x : Flt
  y : Flt
  z : Flt
  deriving DecidableEq, Repr

/-- Lift a finite vector into `Flt` components. -/
def FVec3.ofVec3 (v : Vec3) : FVec3 := ⟨some v.x, some v.y, some v.z⟩

def fnormSq (v : FVec3) : Flt :=
  fadd (fadd (fmul v.x v.x) (fmul v.y v.y)) (fmul v.z v.z)

/-- The second-variant hand-interaction loop body (Experience.tsx lines
489-503) over `Flt`, exactly as `handForce2` but with double semantics:
no epsilon guard exists, so a zero distance makes `dx/dist = 0/0`
non-finite. -/
def handForce2F (sq : ℚ → ℚ) (attract : ℚ) (cfg : Option SceneConfig)
    (p : FVec3) (v : FVec3) (h : HandData) : FVec3 :=
  let hp := scaledPalm2 h
  let dx := fsub (some hp.x) p.x
  let dy := fsub (some hp.y) p.y
  let dz := fsub (some hp.z) p.z
  let d2 := fnormSq ⟨dx, dy, dz⟩
  if (h.isOpen = true ∨ h.gesture = HandGesture.POINTER) ∧
      fltLt d2 (PHYSICS.attractFalloff * PHYSICS.attractFalloff) = true then
    let dist := fsqrt sq d2
    let force := fmul (fmul (fsub (some PHYSICS.attractFalloff) dist) (some attract))
      (some (if h.gesture = HandGesture.POINTER then 4 else 1))
    ⟨fadd v.x (fmul (fdiv dx dist) force), fadd v.y (fmul (fdiv dy dist) force),
      fadd v.z (fmul (fdiv dz dist) force)⟩
  else if h.isPinching = false ∧
      fltLt d2 (PHYSICS.repelFalloff * PHYSICS.repelFalloff) = true then
    let dist := fsqrt sq d2
    let force := fmul (fsub (some PHYSICS.repelFalloff) dist)
      (some (jsOrQ (cfg.map SceneConfig.repelForce) PHYSICS.repelForce))
    ⟨fsub v.x (fmul (fdiv dx dist) force), fsub v.y (fmul (fdiv dy dist) force),
      fsub v.z (fmul (fdiv dz dist) force)⟩
  else v

def handPhase2F (sq : ℚ → ℚ) (attract : ℚ) (cfg : Option SceneConfig)
    (p : FVec3) (v : FVec3) (hands : List HandData) : FVec3 :=
  hands.foldl (handForce2F sq attract cfg p) v

/-- Home/shape attraction (lines 505-518) over `Flt`. -/
def homePhase2F (mode : AppMode) (cfg : Option SceneConfig) (i : ℕ)
    (home : Vec3) (p : FVec3) (v : FVec3) : FVec3 :=
  if mode = AppMode.PLAYGROUND ∨ mode = AppMode.AI_ORACLE then
    match cfg.bind SceneConfig.shapeVertices with
    | some (v0 :: rest) =>
      let vs := v0 :: rest
      let t := vs.getD (i % vs.length) 0
      ⟨fadd v.x (fmul (fsub (some t.x) p.x) (some (15/1000))),
        fadd v.y (fmul (fsub (some t.y) p.y) (some (15/1000))),
        fadd v.z (fmul (fsub (some t.z) p.z) (some (15/1000)))⟩
    | _ =>
      ⟨fadd v.x (fmul (fsub (some home.x) p.x) (some PHYSICS.returnHomeForce)),
        fadd v.y (fmul (fsub (some home.y) p.y) (some PHYSICS.returnHomeForce)),
        fadd v.z (fmul (fsub (some home.z) p.z) (some PHYSICS.returnHomeForce))⟩
  else v

/-- Chaos jitter (lines 520-524) over `Flt`; the blended factor and the
random draws are finite scalars held outside the particle arrays. -/
def chaosPhase2F (rand : Fin 3 → ℚ) (chaos : ℚ) (v : FVec3) : FVec3 :=
  if 1/10 < chaos then
    ⟨fadd v.x (some ((rand 0 - 1/2) * chaos * (4/10))),
      fadd v.y (some ((rand 1 - 1/2) * chaos * (4/10))),
      fadd v.z (some ((rand 2 - 1/2) * chaos * (4/10)))⟩
  else v

/-- Alignment grid snap (lines 529-537) over `Flt`. -/
def alignPhase2F (alignment : ℚ) (p : FVec3) : FVec3 :=
  if 1/10 < alignment then
    let gridSize : ℚ := 12/10
    let tx := fmul (fround (fdiv p.x (some gridSize))) (some gridSize)
    let ty := fmul (fround (fdiv p.y (some gridSize))) (some gridSize)
    let tz := fmul (fround (fdiv p.z (some gridSize))) (some gridSize)
    let a := alignment * 15/100
    ⟨fadd p.x (fmul (fsub tx p.x) (some a)), fadd p.y (fmul (fsub ty p.y) (some a)),
      fadd p.z (fmul (fsub tz p.z) (some a))⟩
  else p

/-- One boundary axis (lines 539-542) over `Flt`: `Math.abs(NaN) > 40`
is false, so a non-finite position passes through unclamped. -/
def boundAxis2F (x vx : Flt) : Flt × Flt :=
  if fabsGt x PHYSICS.boundaryLimit = true then
    (fmul (fsign x) (some PHYSICS.boundaryLimit), fmul vx (some (-(1/2))))
  else (x, vx)

/-- The position/velocity pipeline of one second-variant per-particle
tick (lines 484-545) over `Flt`.  The color/size section (lines 547-556)
is omitted: it reads the stored velocity but writes only the visual
arrays.  There is no NaN or infinity check anywhere in the source loop,
so the computed components are stored as-is. -/
def tick2F (sq : ℚ → ℚ) (rand : Fin 3 → ℚ) (P : Params2) (i : ℕ)
    (home : Vec3) (pos vel : FVec3) : FVec3 × FVec3 :=
  let v0 := handPhase2F sq P.activeAttract P.cfg pos vel P.hands
  let v1 := homePhase2F P.mode P.cfg i home pos v0
  let v2 := chaosPhase2F rand P.chaosFactor v1
  let v3 : FVec3 := ⟨fmul v2.x (some P.activeFriction), fmul v2.y (some P.activeFriction),
    fmul v2.z (some P.activeFriction)⟩
  let p1 : FVec3 := ⟨fadd pos.x (fmul v3.x (some P.timeScale)),
    fadd pos.y (fmul v3.y (some P.timeScale)),
    fadd pos.z (fmul v3.z (some P.timeScale))⟩
  let p2 := alignPhase2F P.alignmentFactor p1
  let ax := boundAxis2F p2.x v3.x
  let ay := boundAxis2F p2.y v3.y
  let az := boundAxis2F p2.z v3.z
  (⟨ax.1, ay.1, az.1⟩, ⟨ax.2, ay.2, az.2⟩)

/-! ## Sample inputs used by concrete witnesses and counterexamples -/

/-- A square-root model returning 0 everywhere.  It is used only in runs
where either `Math.sqrt` is applied to 0 alone, or where the components a
theorem mentions do not depend on the square root (each use site notes
which case applies). -/
def sqZero : ℚ → ℚ := fun _ => 0

/-- A square-root model returning 3 everywhere, used in runs whose only
square-root argument is 9 (so it agrees with the true square root). -/
def sq3 : ℚ → ℚ := fun _ => 3

def rand0 : Fin 3 → ℚ := fun _ => 0

def randHalf : Fin 3 → ℚ := fun _ => 1/2

/-- An open, non-pinching, gestureless hand whose palm is at the origin
(scaled palm position also the origin). -/
def hOpenOrigin : HandData :=
  { landmarks := [], palm := 0, isRight := true, isOpen := true,
    isPinching := false, gesture := HandGesture.NONE }

/-- An open, non-pinching hand with scaled palm position (5, 0, 0). -/
def hOpenNear : HandData :=
  { landmarks := [], palm := ⟨1, 0, 0⟩, isRight := true, isOpen := true,
    isPinching := false, gesture := HandGesture.NONE }

/-- A closed (not open), non-pinching hand with scaled palm position
(5, 0, 0). -/
def hClosedNear : HandData :=
  { landmarks := [], palm := ⟨1, 0, 0⟩, isRight := true, isOpen := false,
    isPinching := false, gesture := HandGesture.NONE }

/-- A hand making no recognized gesture. -/
def hGestureNone : HandData :=
  { landmarks := [], palm := 0, isRight := true, isOpen := false,
    isPinching := false, gesture := HandGesture.NONE }

/-- A hand making the ROCK gesture. -/
def hGestureRock : HandData :=
  { landmarks := [], palm := 0, isRight := false, isOpen := false,
    isPinching := false, gesture := HandGesture.ROCK }

/-- Second-variant frame inputs: one open hand at the origin, SILHOUETTE
mode (so the home/shape branch is inactive), default blended scalars. -/
def silParamsOpen : Params2 :=
  { hands := [hOpenOrigin], mode := AppMode.SILHOUETTE, cfg := none, audioData := 0,
    activeFriction := 96/100, activeAttract := 3/100, timeScale := 1,
    chaosFactor := 0, alignmentFactor := 0 }

/-- Second-variant frame inputs: no hands, SILHOUETTE mode, default
blended scalars. -/
def silParamsEmpty : Params2 :=
  { hands := [], mode := AppMode.SILHOUETTE, cfg := none, audioData := 0,
    activeFriction := 96/100, activeAttract := 3/100, timeScale := 1,
    chaosFactor := 0, alignmentFactor := 0 }

/-- Third-variant frame inputs: no hands, AIR_DRAWING mode. -/
def drawParams3 : Params3 :=
  { hands := [], mode := AppMode.AIR_DRAWING, cfg := none,
    drawStyle := DrawingStyle.NEON, time := 0, smoothedLMs := [], drawIdx := 0 }

/-- Third-variant frame inputs: no hands, AUDIO_REACTIVE mode. -/
def audioParams3 : Params3 :=
  { hands := [], mode := AppMode.AUDIO_REACTIVE, cfg := none,
    drawStyle := DrawingStyle.NEON, time := 0, smoothedLMs := [], drawIdx := 0 }

/-- Third-variant frame inputs: no hands, PLAYGROUND mode. -/
def playParams3 : Params3 :=
  { hands := [], mode := AppMode.PLAYGROUND, cfg := none,
    drawStyle := DrawingStyle.NEON, time := 0, smoothedLMs := [], drawIdx := 0 }

/-- A particle at rest at the origin. -/
def pstate0 : PState := { pos := 0, vel := 0, home := 0, col := 0, size := 0 }

/-- A particle at the origin moving fast along x. -/
def pstateFast : PState := { pos := 0, vel := ⟨10, 0, 0⟩, home := 0, col := 0, size := 0 }

/-- A third-variant particle at rest at the origin. -/
def p3state0 : P3State := { pos := 0, vel := 0, home := 0, timer := 0 }

/-- A third-variant particle at rest at (1,0,0) with home at the origin. -/
def p3stateOff : P3State := { pos := ⟨1, 0, 0⟩, vel := 0, home := 0, timer := 0 }

/-- A third-variant drawing-pool particle at rest at (1,2,3), inside the
boundary cube, with its drawing timer expired. -/
def p3stateIn : P3State := { pos := ⟨1, 2, 3⟩, vel := 0, home := 0, timer := 0 }

/-! ## Helper lemmas -/

/-- One `lerp` step with factor 0.05 shrinks the distance to the target
by the exact ratio 19/20 and never leaves the interval between the
current value and the target. -/
theorem jlerp_smoothing (c t : ℚ) :
    |t - jlerp c t (5/100)| = (19/20) * |t - c| ∧
    min c t ≤ jlerp c t (5/100) ∧ jlerp c t (5/100) ≤ max c t := by
  refine ⟨?_, ?_, ?_⟩
  · have h : t - jlerp c t (5/100) = (19/20) * (t - c) := by unfold jlerp; ring
    rw [h, abs_mul]
    norm_num
  · rcases le_total c t with h | h
    · have : min c t = c := min_eq_left h
      rw [this]; unfold jlerp; nlinarith
    · have : min c t = t := min_eq_right h
      rw [this]; unfold jlerp; nlinarith
  · rcases le_total c t with h | h
    · have : max c t = t := max_eq_right h
      rw [this]; unfold jlerp; nlinarith
    · have : max c t = c := max_eq_left h
      rw [this]; unfold jlerp; nlinarith

/-- Whatever position the integrator hands it, a clamped axis ends
within the boundary. -/
theorem boundAxis2_abs_le (x vx : ℚ) :
    |(boundAxis2 x vx).1| ≤ PHYSICS.boundaryLimit := by
  unfold boundAxis2
  split
  · next h =>
    have hx : x ≠ 0 := by
      intro h0
      rw [h0] at h
      norm_num [PHYSICS.boundaryLimit] at h
    rcases lt_or_gt_of_ne hx with hneg | hpos
    · simp only [jsign, if_neg (not_lt.mpr (le_of_lt hneg)), if_pos hneg]
      rw [show (-1 : ℚ) * PHYSICS.boundaryLimit = -(PHYSICS.boundaryLimit) by ring]
      rw [abs_neg, abs_of_nonneg (by norm_num [PHYSICS.boundaryLimit])]
    · simp only [jsign, if_pos hpos]
      rw [one_mul, abs_of_nonneg (by norm_num [PHYSICS.boundaryLimit])]
  · next h =>
    exact le_of_not_lt h

/-- Squared norm of a scaled vector. -/
theorem Vec3.normSq_scale (c : ℚ) (v : Vec3) :
    (Vec3.scale c v).normSq = c ^ 2 * v.normSq := by
  unfold Vec3.scale Vec3.normSq
  ring

/-- The common clamp-then-store step of the third-variant kernel: if
`sVal` is the true nonnegative square root of the squared speed, the
clamped velocity has squared norm at most `maxSpeed^2`. -/
theorem clampSpeed3_normSq_le (w : Vec3) (sVal : ℚ) (h0 : 0 ≤ sVal)
    (hsq : sVal * sVal = w.normSq) :
    (if PHYSICS.maxSpeed < sVal then Vec3.scale (PHYSICS.maxSpeed / sVal) w
      else w).normSq ≤ PHYSICS.maxSpeed ^ 2 := by
  split
  · next hgt =>
    rw [Vec3.normSq_scale, ← hsq]
    have hne : sVal ≠ 0 := ne_of_gt (lt_trans (by norm_num [PHYSICS.maxSpeed]) hgt)
    rw [div_pow, show sVal * sVal = sVal ^ 2 from (pow_two sVal).symm,
      div_mul_cancel₀ _ (pow_ne_zero 2 hne)]
  · next hle =>
    rw [← hsq]
    have h1 : sVal ≤ PHYSICS.maxSpeed := not_lt.mp hle
    calc sVal * sVal ≤ PHYSICS.maxSpeed * PHYSICS.maxSpeed :=
          mul_le_mul h1 h1 h0 (by norm_num [PHYSICS.maxSpeed])
      _ = PHYSICS.maxSpeed ^ 2 := by ring

/-! ## Claim C7: gesture-to-target mapping -/

/-- The gesture table exactly as the specification writes it: PEACE gives
(0.08, 0, 0), ROCK gives (1, 1, 0), THUMBS_UP gives (1, 0, 1), every
other gesture gives (1, 0, 0). -/
def claimTable : HandGesture → ℚ × ℚ × ℚ
  | HandGesture.PEACE => (8/100, 0, 0)
  | HandGesture.ROCK => (1, 1, 0)
  | HandGesture.THUMBS_UP => (1, 0, 1)
  | _ => (1, 0, 0)

/-- The claim's selection rule, read strictly: the gesture of the first
hand whose gesture is one of the three special table rows. -/
def specFirstMatching (hands : List HandData) : HandGesture :=
  match hands.find? (fun h => decide (h.gesture = HandGesture.PEACE) ||
      decide (h.gesture = HandGesture.ROCK) ||
      decide (h.gesture = HandGesture.THUMBS_UP)) with
  | some h => h.gesture
  | none => HandGesture.NONE

/-- Claim C7, counterexample.  With two hands [NONE, ROCK] the kernel
reads only `hands[0].gesture` (NONE), so the chaos target stays 0 and
the blended chaos value stays 0; under the claim's "first hand whose
gesture is in the table" rule the ROCK hand should win, making the
blended chaos value move to 1/20 after one frame.  The code's result
differs from the claim's. -/
theorem c7_first_hand_counterexample :
    updateBlend2 [hGestureNone, hGestureRock] 1 0 0 = (1, 0, 0) ∧
    specFirstMatching [hGestureNone, hGestureRock] = HandGesture.ROCK ∧
    jlerp 0 (claimTable (specFirstMatching [hGestureNone, hGestureRock])).2.1 (5/100)
      = 1/20 ∧
    (updateBlend2 [hGestureNone, hGestureRock] 1 0 0).2.1 ≠
      jlerp 0 (claimTable (specFirstMatching [hGestureNone, hGestureRock])).2.1 (5/100) := by
  refine ⟨?_, ?_, ?_, ?_⟩ <;>
    simp +decide [updateBlend2, gestureTargets, activeGesture2, jlerp, specFirstMatching,
      claimTable, hGestureNone, hGestureRock, List.find?] <;>
    norm_num

/-- Claim C7, amended.  The blend targets follow the fixed table exactly
as stated, but the hand that determines them is always the first hand of
the list, whatever its gesture: hands after the first never influence
the targets, and with no hands the NONE/others row applies. -/
theorem c7_gesture_table_first_hand :
    (∀ g : HandGesture, gestureTargets g = claimTable g) ∧
    (∀ (h : HandData) (rest : List HandData) (ts ch al : ℚ),
      updateBlend2 (h :: rest) ts ch al = updateBlend2 [h] ts ch al) ∧
    (∀ ts ch al : ℚ, updateBlend2 [] ts ch al =
      (jlerp ts (claimTable HandGesture.NONE).1 (5/100),
        jlerp ch (claimTable HandGesture.NONE).2.1 (5/100),
        jlerp al (claimTable HandGesture.NONE).2.2 (5/100))) := by
  refine ⟨fun g => ?_, fun h rest ts ch al => rfl, fun ts ch al => rfl⟩
  cases g <;> rfl

/-! ## Claim C8: parameter smoothing -/

/-- Claim C8.  Each frame, every blended parameter (time-scale, chaos,
alignment) moves toward its gesture-derived target by `lerp` with fixed
factor 0.05: the distance to the target shrinks by the exact ratio 19/20,
and the new value always lies between the previous value and the target
(no overshoot and no discrete jump). -/
theorem c8_parameter_smoothing (hands : List HandData) (ts ch al : ℚ) :
    (|(gestureTargets (activeGesture2 hands)).1 - (updateBlend2 hands ts ch al).1| =
        (19/20) * |(gestureTargets (activeGesture2 hands)).1 - ts| ∧
      min ts (gestureTargets (activeGesture2 hands)).1 ≤ (updateBlend2 hands ts ch al).1 ∧
      (updateBlend2 hands ts ch al).1 ≤ max ts (gestureTargets (activeGesture2 hands)).1) ∧
    (|(gestureTargets (activeGesture2 hands)).2.1 - (updateBlend2 hands ts ch al).2.1| =
        (19/20) * |(gestureTargets (activeGesture2 hands)).2.1 - ch| ∧
      min ch (gestureTargets (activeGesture2 hands)).2.1 ≤ (updateBlend2 hands ts ch al).2.1 ∧
      (updateBlend2 hands ts ch al).2.1 ≤ max ch (gestureTargets (activeGesture2 hands)).2.1) ∧
    (|(gestureTargets (activeGesture2 hands)).2.2 - (updateBlend2 hands ts ch al).2.2| =
        (19/20) * |(gestureTargets (activeGesture2 hands)).2.2 - al| ∧
      min al (gestureTargets (activeGesture2 hands)).2.2 ≤ (updateBlend2 hands ts ch al).2.2 ∧
      (updateBlend2 hands ts ch al).2.2 ≤ max al (gestureTargets (activeGesture2 hands)).2.2) := by
  exact ⟨jlerp_smoothing ts (gestureTargets (activeGesture2 hands)).1,
    jlerp_smoothing ch (gestureTargets (activeGesture2 hands)).2.1,
    jlerp_smoothing al (gestureTargets (activeGesture2 hands)).2.2⟩

/-! ## Claim C10: determinism of the tick when chaos is inactive -/

/-- Claim C10.  When the blended chaos factor is at most 0.1 the chaos
jitter branch is skipped, and the per-particle tick of the second-variant
kernel does not consult the random stream at all: two runs from the same
state with the same hands, mode, configuration, audio and blended
parameters produce identical positions, velocities, colors and sizes. -/
theorem c10_tick_deterministic_when_chaos_low (sq : ℚ → ℚ) (r1 r2 : Fin 3 → ℚ)
    (P : Params2) (i : ℕ) (s : PState) (h : P.chaosFactor ≤ 1/10) :
    tick2Particle sq r1 P i s = tick2Particle sq r2 P i s := by
  have hn : ¬ ((1:ℚ)/10 < P.chaosFactor) := not_lt.mpr h
  simp only [tick2Particle, chaosPhase2, if_neg hn]

/-- Witness for C10 at a concrete state: chaos factor 0, two different
random streams, identical results. -/
theorem c10_tick_deterministic_when_chaos_low_witness :
    silParamsEmpty.chaosFactor ≤ 1/10 ∧
    tick2Particle sqZero rand0 silParamsEmpty 0 pstate0 =
      tick2Particle sqZero randHalf silParamsEmpty 0 pstate0 :=
  ⟨by norm_num [silParamsEmpty], c10_tick_deterministic_when_chaos_low sqZero rand0 randHalf
    silParamsEmpty 0 pstate0 (by norm_num [silParamsEmpty])⟩

/-! ## Claim C5: attraction force -/

/-- Claim C5.  For a hand that is open or makes the POINTER gesture, and
a particle strictly within the attract falloff of the hand's scaled palm
position (at the true Euclidean distance `dist`, witnessed by the
square-root hypotheses), the hand-loop iteration adds to the velocity the
vector toward the palm of length `(attractFalloff - dist) * attract`,
multiplied by 4 exactly when the gesture is POINTER: that is, the
particle-to-palm direction `(scaledPalm2 h - p)` scaled by
`force / dist`. -/
theorem c5_attraction_force (sq : ℚ → ℚ) (attract : ℚ) (cfg : Option SceneConfig)
    (p v : Vec3) (h : HandData)
    (hopen : h.isOpen = true ∨ h.gesture = HandGesture.POINTER)
    (hnear : (scaledPalm2 h - p).normSq < PHYSICS.attractFalloff * PHYSICS.attractFalloff)
    (hpos : 0 < sq ((scaledPalm2 h - p).normSq))
    (hsq : sq ((scaledPalm2 h - p).normSq) * sq ((scaledPalm2 h - p).normSq) =
      (scaledPalm2 h - p).normSq) :
    handForce2 sq attract cfg p v h =
      v + Vec3.scale
        ((PHYSICS.attractFalloff - sq ((scaledPalm2 h - p).normSq)) * attract *
          (if h.gesture = HandGesture.POINTER then 4 else 1) /
          sq ((scaledPalm2 h - p).normSq))
        (scaledPalm2 h - p) := by
  unfold handForce2
  rw [if_pos ⟨hopen, hnear⟩]
  have hne : sq ((scaledPalm2 h - p).normSq) ≠ 0 := ne_of_gt hpos
  show Vec3.mk _ _ _ = _
  rw [Vec3.add_def, Vec3.mk.injEq]
  unfold Vec3.scale
  refine ⟨?_, ?_, ?_⟩ <;> field_simp <;> ring

/-- Witness for C5: an open hand with scaled palm (5,0,0) and a particle
at (2,0,0), so the squared distance is 9 and the true distance 3; the
velocity gains `(8 - 3) * 0.03 / 3` along (3,0,0), i.e. (3/20, 0, 0). -/
theorem c5_attraction_force_witness :
    ((hOpenNear.isOpen = true ∨ hOpenNear.gesture = HandGesture.POINTER) ∧
      (scaledPalm2 hOpenNear - ⟨2, 0, 0⟩).normSq <
        PHYSICS.attractFalloff * PHYSICS.attractFalloff ∧
      0 < sq3 ((scaledPalm2 hOpenNear - ⟨2, 0, 0⟩).normSq)) ∧
    handForce2 sq3 (3/100) none ⟨2, 0, 0⟩ 0 hOpenNear =
      0 + Vec3.scale
        ((PHYSICS.attractFalloff - sq3 ((scaledPalm2 hOpenNear - ⟨2, 0, 0⟩).normSq)) *
          (3/100) * (if hOpenNear.gesture = HandGesture.POINTER then 4 else 1) /
          sq3 ((scaledPalm2 hOpenNear - ⟨2, 0, 0⟩).normSq))
        (scaledPalm2 hOpenNear - ⟨2, 0, 0⟩) :=
  ⟨⟨Or.inl rfl,
      by norm_num [scaledPalm2, hOpenNear, Vec3.normSq, Vec3.sub_def, PHYSICS.attractFalloff],
      by norm_num [sq3]⟩,
    c5_attraction_force sq3 (3/100) none ⟨2, 0, 0⟩ 0 hOpenNear (Or.inl rfl)
      (by norm_num [scaledPalm2, hOpenNear, Vec3.normSq, Vec3.sub_def, PHYSICS.attractFalloff])
      (by norm_num [sq3]) (by norm_num [sq3, scaledPalm2, hOpenNear, Vec3.normSq, Vec3.sub_def])⟩

/-! ## Claim C6: repulsion force -/

/-- Claim C6, counterexample.  An open, non-pinching hand with scaled
palm (5,0,0) and a particle at (2,0,0): the particle is within the repel
falloff (distance 3 < 9), the hand is not pinching, yet the kernel takes
the attraction branch (the `else if` chain skips repulsion whenever the
attraction condition holds), yielding the attraction value (3/20, 0, 0)
rather than velocity minus the repulsion term (-9/5, 0, 0). -/
theorem c6_open_hand_repels_counterexample :
    hOpenNear.isPinching = false ∧
    (scaledPalm2 hOpenNear - ⟨2, 0, 0⟩).normSq <
      PHYSICS.repelFalloff * PHYSICS.repelFalloff ∧
    handForce2 sq3 (3/100) none ⟨2, 0, 0⟩ 0 hOpenNear = ⟨3/20, 0, 0⟩ ∧
    handForce2 sq3 (3/100) none ⟨2, 0, 0⟩ 0 hOpenNear ≠
      (0 : Vec3) - Vec3.scale
        ((PHYSICS.repelFalloff - sq3 ((scaledPalm2 hOpenNear - ⟨2, 0, 0⟩).normSq)) *
          jsOrQ ((none : Option SceneConfig).map SceneConfig.repelForce) PHYSICS.repelForce /
          sq3 ((scaledPalm2 hOpenNear - ⟨2, 0, 0⟩).normSq))
        (scaledPalm2 hOpenNear - ⟨2, 0, 0⟩) := by
  refine ⟨rfl, ?_, ?_, ?_⟩ <;>
    simp +decide [handForce2, scaledPalm2, hOpenNear, Vec3.normSq, Vec3.sub_def, Vec3.scale,
      Vec3.zero_def, sq3, jsOrQ, PHYSICS.attractFalloff, PHYSICS.repelFalloff,
      PHYSICS.repelForce] <;>
    norm_num

/-- Claim C6, amended.  Repulsion applies to a non-pinching hand within
the repel falloff only when the attraction branch did not fire (the hand
is neither open nor POINTER, or the particle is outside the attract
falloff); in that case the velocity loses the palm-direction vector
scaled by `(repelFalloff - dist) * repelForce / dist`, with the
configured repel force falling back to the default when absent or zero. -/
theorem c6_repulsion_when_not_attracting (sq : ℚ → ℚ) (attract : ℚ)
    (cfg : Option SceneConfig) (p v : Vec3) (h : HandData)
    (hpin : h.isPinching = false)
    (hnear : (scaledPalm2 h - p).normSq < PHYSICS.repelFalloff * PHYSICS.repelFalloff)
    (hnoattr : ¬ ((h.isOpen = true ∨ h.gesture = HandGesture.POINTER) ∧
      (scaledPalm2 h - p).normSq < PHYSICS.attractFalloff * PHYSICS.attractFalloff))
    (hpos : 0 < sq ((scaledPalm2 h - p).normSq))
    (hsq : sq ((scaledPalm2 h - p).normSq) * sq ((scaledPalm2 h - p).normSq) =
      (scaledPalm2 h - p).normSq) :
    handForce2 sq attract cfg p v h =
      v - Vec3.scale
        ((PHYSICS.repelFalloff - sq ((scaledPalm2 h - p).normSq)) *
          jsOrQ (cfg.map SceneConfig.repelForce) PHYSICS.repelForce /
          sq ((scaledPalm2 h - p).normSq))
        (scaledPalm2 h - p) := by
  unfold handForce2
  rw [if_neg hnoattr, if_pos ⟨hpin, hnear⟩]
  have hne : sq ((scaledPalm2 h - p).normSq) ≠ 0 := ne_of_gt hpos
  show Vec3.mk _ _ _ = _
  rw [Vec3.sub_scale_def, Vec3.mk.injEq]
  refine ⟨?_, ?_, ?_⟩ <;> field_simp <;> ring

/-- Witness for the amended C6: a closed, non-pinching hand with scaled
palm (5,0,0) and a particle at (2,0,0) (distance 3, within the repel
falloff 9, and the attraction branch cannot fire). -/
theorem c6_repulsion_when_not_attracting_witness :
    (hClosedNear.isPinching = false ∧
      (scaledPalm2 hClosedNear - ⟨2, 0, 0⟩).normSq <
        PHYSICS.repelFalloff * PHYSICS.repelFalloff ∧
      ¬ ((hClosedNear.isOpen = true ∨ hClosedNear.gesture = HandGesture.POINTER) ∧
        (scaledPalm2 hClosedNear - ⟨2, 0, 0⟩).normSq <
          PHYSICS.attractFalloff * PHYSICS.attractFalloff)) ∧
    handForce2 sq3 (3/100) none ⟨2, 0, 0⟩ 0 hClosedNear =
      0 - Vec3.scale
        ((PHYSICS.repelFalloff - sq3 ((scaledPalm2 hClosedNear - ⟨2, 0, 0⟩).normSq)) *
          jsOrQ ((none : Option SceneConfig).map SceneConfig.repelForce) PHYSICS.repelForce /
          sq3 ((scaledPalm2 hClosedNear - ⟨2, 0, 0⟩).normSq))
        (scaledPalm2 hClosedNear - ⟨2, 0, 0⟩) :=
  ⟨⟨rfl,
      by norm_num [scaledPalm2, hClosedNear, Vec3.normSq, Vec3.sub_def, PHYSICS.repelFalloff],
      by simp +decide [hClosedNear]⟩,
    c6_repulsion_when_not_attracting sq3 (3/100) none ⟨2, 0, 0⟩ 0 hClosedNear rfl
      (by norm_num [scaledPalm2, hClosedNear, Vec3.normSq, Vec3.sub_def, PHYSICS.repelFalloff])
      (by simp +decide [hClosedNear])
      (by norm_num [sq3])
      (by norm_num [sq3, scaledPalm2, hClosedNear, Vec3.normSq, Vec3.sub_def])⟩

/-! ## Claim C1: boundary invariant -/

/-- Claim C1, counterexample.  The third-variant kernel has no boundary
handling: in AIR_DRAWING mode a drawing-pool particle whose timer has
expired is parked at `z = -100` (line 748), far outside the boundary
limit 40, even though it starts inside the boundary cube.  (The only
square-root call in this run is on the zero velocity, where `sqZero`
agrees with the true square root.) -/
theorem c1_third_variant_escapes_boundary :
    |p3stateIn.pos.x| ≤ PHYSICS.boundaryLimit ∧
    |p3stateIn.pos.y| ≤ PHYSICS.boundaryLimit ∧
    |p3stateIn.pos.z| ≤ PHYSICS.boundaryLimit ∧
    (tick3Particle sqZero sqZero sqZero rand0 drawParams3 0 p3stateIn).pos.z = -100 ∧
    ¬ |(tick3Particle sqZero sqZero sqZero rand0 drawParams3 0 p3stateIn).pos.z| ≤
      PHYSICS.boundaryLimit := by
  refine ⟨?_, ?_, ?_, ?_, ?_⟩ <;>
    simp +decide [tick3Particle, forces3, drawParams3, p3stateIn, compressing3,
      DRAWING_CONFIG, drawPoolSize, Vec3.normSq, Vec3.add_def, Vec3.zero_def, sqZero, rand0,
      PHYSICS.boundaryLimit, PHYSICS.maxSpeed] <;>
    norm_num

/-- Claim C1, amended (second-variant kernel).  After every tick of the
second-variant kernel, every position component is within the boundary
limit 40 in absolute value, and any axis whose integrated position
exceeds the limit is clamped to `sign(x) * 40` with its velocity
component multiplied by the energy-loss factor `-0.5`. -/
theorem c1_boundary_clamped_v2 (sq : ℚ → ℚ) (rand : Fin 3 → ℚ) (P : Params2)
    (i : ℕ) (s : PState) :
    (|(tick2Particle sq rand P i s).pos.x| ≤ PHYSICS.boundaryLimit ∧
      |(tick2Particle sq rand P i s).pos.y| ≤ PHYSICS.boundaryLimit ∧
      |(tick2Particle sq rand P i s).pos.z| ≤ PHYSICS.boundaryLimit) ∧
    (∀ x vx : ℚ, PHYSICS.boundaryLimit < |x| →
      (boundAxis2 x vx).1 = jsign x * PHYSICS.boundaryLimit ∧
      (boundAxis2 x vx).2 = vx * (-(1/2))) := by
  constructor
  · refine ⟨?_, ?_, ?_⟩ <;>
      · show |(boundAxis2 _ _).1| ≤ PHYSICS.boundaryLimit
        exact boundAxis2_abs_le _ _
  · intro x vx hx
    unfold boundAxis2
    rw [if_pos hx]
    exact ⟨rfl, rfl⟩

/-- Witness for the amended C1: a concrete tick stays within the
boundary, and a concrete overshooting axis (x = 50) is clamped to 40
with the velocity inverted and halved. -/
theorem c1_boundary_clamped_v2_witness :
    PHYSICS.boundaryLimit < |(50 : ℚ)| ∧
    |(tick2Particle sqZero rand0 silParamsEmpty 0 pstate0).pos.x| ≤ PHYSICS.boundaryLimit ∧
    (boundAxis2 50 1).1 = jsign 50 * PHYSICS.boundaryLimit ∧
    (boundAxis2 50 1).2 = 1 * (-(1/2)) :=
  ⟨by norm_num [PHYSICS.boundaryLimit],
    (c1_boundary_clamped_v2 sqZero rand0 silParamsEmpty 0 pstate0).1.1,
    ((c1_boundary_clamped_v2 sqZero rand0 silParamsEmpty 0 pstate0).2 50 1
      (by norm_num [PHYSICS.boundaryLimit])).1,
    ((c1_boundary_clamped_v2 sqZero rand0 silParamsEmpty 0 pstate0).2 50 1
      (by norm_num [PHYSICS.boundaryLimit])).2⟩

/-! ## Claim C2: speed clamp -/

/-- Claim C2, counterexample.  The second-variant kernel applies no speed
clamp at all: with no hands and default parameters, a particle entering
the tick at speed 10 leaves it at speed 9.6 (only friction applied),
far above the maximum speed 0.6.  (With no hands, the square root enters
only the color mapping, on which the stated components do not depend.) -/
theorem c2_second_variant_exceeds_max_speed :
    (tick2Particle sqZero rand0 silParamsEmpty 0 pstateFast).vel = ⟨48/5, 0, 0⟩ ∧
    PHYSICS.maxSpeed ^ 2 < (tick2Particle sqZero rand0 silParamsEmpty 0 pstateFast).vel.normSq := by
  constructor <;>
    (simp +decide [tick2Particle, handPhase2, homePhase2, chaosPhase2, alignPhase2,
      boundary2, boundAxis2, silParamsEmpty, pstateFast, jsign, Vec3.normSq, Vec3.zero_def,
      sqZero, rand0, PHYSICS.returnHomeForce, PHYSICS.boundaryLimit, PHYSICS.maxSpeed];
     rw [abs_of_nonneg (show (0 : ℚ) ≤ 10 * (96/100) by norm_num)];
     norm_num)

/-- Claim C2, amended (third-variant kernel).  The third-variant kernel
does clamp: after friction, if the speed exceeds the maximum the
velocity is rescaled by `maxSpeed / speed`, so the stored squared speed
never exceeds `maxSpeed^2` (the hypotheses state that `sq` returns the
true nonnegative square root of the pre-clamp squared speed). -/
theorem c2_speed_clamped_v3 (sq jsin jcos : ℚ → ℚ) (rand : Fin 3 → ℚ)
    (C : Params3) (i : ℕ) (s : P3State)
    (h0 : 0 ≤ sq ((forces3 sq jsin jcos rand C i s).vel.normSq))
    (hsq : sq ((forces3 sq jsin jcos rand C i s).vel.normSq) *
        sq ((forces3 sq jsin jcos rand C i s).vel.normSq) =
      (forces3 sq jsin jcos rand C i s).vel.normSq) :
    (tick3Particle sq jsin jcos rand C i s).vel.normSq ≤ PHYSICS.maxSpeed ^ 2 := by
  show (if PHYSICS.maxSpeed < sq ((forces3 sq jsin jcos rand C i s).vel.normSq) then
      Vec3.scale (PHYSICS.maxSpeed / sq ((forces3 sq jsin jcos rand C i s).vel.normSq))
        (forces3 sq jsin jcos rand C i s).vel
    else (forces3 sq jsin jcos rand C i s).vel).normSq ≤ PHYSICS.maxSpeed ^ 2
  exact clampSpeed3_normSq_le (forces3 sq jsin jcos rand C i s).vel
    (sq ((forces3 sq jsin jcos rand C i s).vel.normSq)) h0 hsq

/-- Witness for the amended C2 at a concrete all-zero run of the
third-variant kernel. -/
theorem c2_speed_clamped_v3_witness :
    0 ≤ sqZero ((forces3 sqZero sqZero sqZero rand0 playParams3 0 p3state0).vel.normSq) ∧
    (tick3Particle sqZero sqZero sqZero rand0 playParams3 0 p3state0).vel.normSq ≤
      PHYSICS.maxSpeed ^ 2 :=
  ⟨by norm_num [sqZero],
    c2_speed_clamped_v3 sqZero sqZero sqZero rand0 playParams3 0 p3state0
      (by norm_num [sqZero])
      (by simp +decide [sqZero, forces3, playParams3, p3state0, compressing3, Vec3.normSq,
        Vec3.zero_def, PHYSICS.returnHomeForce, PHYSICS.friction])⟩

/-! ## Claim C9: home/shape attraction gating and gains -/

/-- Claim C9, counterexample.  In the third-variant kernel the home pull
is not gated on the PLAYGROUND/AI_ORACLE modes: in AUDIO_REACTIVE mode
with no hands, a particle at (1,0,0) with home at the origin still
receives the home pull (velocity becomes `-0.004 * 0.96 = -12/3125` on x
after friction), although the claim says the pull is applied exactly in
the playground and AI_ORACLE modes.  (The square root is used only in
the speed-clamp comparison, whose outcome — no clamp — agrees with the
true square root of the tiny squared speed.) -/
theorem c9_third_variant_mode_gating_counterexample :
    audioParams3.mode = AppMode.AUDIO_REACTIVE ∧
    audioParams3.mode ≠ AppMode.PLAYGROUND ∧
    audioParams3.mode ≠ AppMode.AI_ORACLE ∧
    (tick3Particle sqZero sqZero sqZero rand0 audioParams3 0 p3stateOff).vel.x = -12/3125 ∧
    (tick3Particle sqZero sqZero sqZero rand0 audioParams3 0 p3stateOff).vel.x ≠ 0 := by
  refine ⟨rfl, by decide, by decide, ?_, ?_⟩ <;>
    (simp +decide [tick3Particle, forces3, audioParams3, p3stateOff, compressing3,
      drawPoolSize, Vec3.normSq, Vec3.add_def, Vec3.zero_def, sqZero, rand0,
      PHYSICS.returnHomeForce, PHYSICS.friction, PHYSICS.maxSpeed];
     norm_num)

/-- Claim C9, amended.  In the second-variant kernel the claim holds as
stated: the home/shape pull is applied exactly in PLAYGROUND and
AI_ORACLE modes; an active non-empty shape vertex list pulls particle
`i` toward vertex `i % length` with gain 0.015, otherwise the particle
is pulled toward its own home with gain `returnHomeForce = 0.004`; and
the home position is never modified by a tick.  In the third-variant
kernel the pull instead lives in the default branch (any mode outside
the drawing pool, with no compression and no silhouette tracking), with
gain `returnHomeForce` toward the home position, and that kernel also
never modifies the home position. -/
theorem c9_home_shape_attraction (sq jsin jcos : ℚ → ℚ) (rand : Fin 3 → ℚ) :
    (∀ (mode : AppMode) (cfg : Option SceneConfig) (i : ℕ) (home p v : Vec3),
      ¬ (mode = AppMode.PLAYGROUND ∨ mode = AppMode.AI_ORACLE) →
      homePhase2 mode cfg i home p v = v) ∧
    (∀ (mode : AppMode) (cfg : Option SceneConfig) (i : ℕ) (home p v : Vec3)
      (v0 : Vec3) (rest : List Vec3),
      (mode = AppMode.PLAYGROUND ∨ mode = AppMode.AI_ORACLE) →
      cfg.bind SceneConfig.shapeVertices = some (v0 :: rest) →
      homePhase2 mode cfg i home p v =
        ⟨v.x + (((v0 :: rest).getD (i % (v0 :: rest).length) 0).x - p.x) * (15/1000),
          v.y + (((v0 :: rest).getD (i % (v0 :: rest).length) 0).y - p.y) * (15/1000),
          v.z + (((v0 :: rest).getD (i % (v0 :: rest).length) 0).z - p.z) * (15/1000)⟩) ∧
    (∀ (mode : AppMode) (cfg : Option SceneConfig) (i : ℕ) (home p v : Vec3),
      (mode = AppMode.PLAYGROUND ∨ mode = AppMode.AI_ORACLE) →
      cfg.bind SceneConfig.shapeVertices = none →
      homePhase2 mode cfg i home p v =
        ⟨v.x + (home.x - p.x) * PHYSICS.returnHomeForce,
          v.y + (home.y - p.y) * PHYSICS.returnHomeForce,
          v.z + (home.z - p.z) * PHYSICS.returnHomeForce⟩) ∧
    (∀ (P : Params2) (i : ℕ) (s : PState),
      (tick2Particle sq rand P i s).home = s.home) ∧
    (∀ (C : Params3) (i : ℕ) (s : P3State),
      C.hands = [] → C.cfg = none → ¬ (C.mode = AppMode.AIR_DRAWING ∧ i < drawPoolSize) →
      (forces3 sq jsin jcos rand C i s).vel =
        ⟨(s.vel.x + (s.home.x - s.pos.x) * PHYSICS.returnHomeForce) * PHYSICS.friction,
          (s.vel.y + (s.home.y - s.pos.y) * PHYSICS.returnHomeForce) * PHYSICS.friction,
          (s.vel.z + (s.home.z - s.pos.z) * PHYSICS.returnHomeForce) * PHYSICS.friction⟩) ∧
    (∀ (C : Params3) (i : ℕ) (s : P3State),
      (tick3Particle sq jsin jcos rand C i s).home = s.home) := by
  refine ⟨?_, ?_, ?_, ?_, ?_, ?_⟩
  · intro mode cfg i home p v hmode
    unfold homePhase2
    rw [if_neg hmode]
  · intro mode cfg i home p v v0 rest hmode hshape
    unfold homePhase2
    rw [if_pos hmode, hshape]
  · intro mode cfg i home p v hmode hshape
    unfold homePhase2
    rw [if_pos hmode, hshape]
  · intro P i s
    rfl
  · intro C i s hhands hcfg hdraw
    unfold forces3
    rw [if_neg hdraw]
    rw [hhands, hcfg]
    simp [compressing3]
  · intro C i s
    show (forces3 sq jsin jcos rand C i s).home = s.home
    unfold forces3
    split
    · rfl
    · split
      · dsimp only
        split <;> rfl
      · split <;> rfl

/-- Witness for the amended C9, instantiating the gating-off case, the
no-shape home-pull case, and the third-variant default-branch case at
concrete inputs. -/
theorem c9_home_shape_attraction_witness :
    (¬ (AppMode.SILHOUETTE = AppMode.PLAYGROUND ∨
        AppMode.SILHOUETTE = AppMode.AI_ORACLE) ∧
      homePhase2 AppMode.SILHOUETTE none 0 0 ⟨1, 0, 0⟩ ⟨2, 3, 4⟩ = ⟨2, 3, 4⟩) ∧
    homePhase2 AppMode.PLAYGROUND none 0 0 ⟨1, 0, 0⟩ ⟨2, 3, 4⟩ =
      ⟨(2 : ℚ) + ((0 : ℚ) - 1) * PHYSICS.returnHomeForce,
        (3 : ℚ) + ((0 : ℚ) - 0) * PHYSICS.returnHomeForce,
        (4 : ℚ) + ((0 : ℚ) - 0) * PHYSICS.returnHomeForce⟩ ∧
    (forces3 sqZero sqZero sqZero rand0 audioParams3 0 p3stateOff).vel =
      ⟨((0 : ℚ) + ((0 : ℚ) - 1) * PHYSICS.returnHomeForce) * PHYSICS.friction,
        ((0 : ℚ) + ((0 : ℚ) - 0) * PHYSICS.returnHomeForce) * PHYSICS.friction,
        ((0 : ℚ) + ((0 : ℚ) - 0) * PHYSICS.returnHomeForce) * PHYSICS.friction⟩ := by
  refine ⟨⟨by decide, ?_⟩, ?_, ?_⟩
  · exact (c9_home_shape_attraction sqZero sqZero sqZero rand0).1
      AppMode.SILHOUETTE none 0 0 ⟨1, 0, 0⟩ ⟨2, 3, 4⟩ (by decide)
  · exact (c9_home_shape_attraction sqZero sqZero sqZero rand0).2.2.1
      AppMode.PLAYGROUND none 0 0 ⟨1, 0, 0⟩ ⟨2, 3, 4⟩ (Or.inl rfl) rfl
  · exact (c9_home_shape_attraction sqZero sqZero sqZero rand0).2.2.2.2.1
      audioParams3 0 p3stateOff rfl rfl (by decide)

/-! ## Claim C3: division-by-near-zero guard -/

/-- Claim C3, evaluated at the failing input.  There is no epsilon guard
in the hand-force loop: a particle exactly at an open hand's scaled palm
position has squared distance 0, which passes the falloff test, and the
code divides `0 / 0`, producing a non-finite value in every velocity
component — not the zero contribution the claim describes.  (The only
square-root argument in this run is 0, where `sqZero` agrees with the
true square root.) -/
theorem c3_zero_distance_not_guarded :
    handForce2F sqZero (3/100) none (FVec3.ofVec3 0) (FVec3.ofVec3 0) hOpenOrigin =
      ⟨none, none, none⟩ ∧
    (handForce2F sqZero (3/100) none (FVec3.ofVec3 0) (FVec3.ofVec3 0) hOpenOrigin).x ≠
      some 0 := by
  constructor <;>
    simp +decide [handForce2F, fnormSq, fadd, fsub, fmul, fdiv, fsqrt, fltLt,
      FVec3.ofVec3, hOpenOrigin, scaledPalm2, sqZero, Vec3.zero_def,
      PHYSICS.attractFalloff, mul_zero, zero_mul, add_zero, zero_add, sub_zero]

/-! ## Claim C4: NaN self-healing -/

/-- Claim C4, evaluated at the failing input.  The second-variant kernel
stores whatever it computes: with a particle exactly at an open hand's
palm, the division `0 / 0` makes the velocity non-finite, friction and
the position advance propagate it, the boundary test `Math.abs(x) > 40`
is false on a non-finite value, and both the position and the velocity
are stored non-finite — nothing resets the components to zero.  Running
the tick again from the stored state keeps every component non-finite,
so the corruption is permanent, not self-healing. -/
theorem c4_nonfinite_stored_not_reset :
    (tick2F sqZero rand0 silParamsOpen 0 0 (FVec3.ofVec3 0) (FVec3.ofVec3 0)).2.x = none ∧
    (tick2F sqZero rand0 silParamsOpen 0 0 (FVec3.ofVec3 0) (FVec3.ofVec3 0)).1.x = none ∧
    (tick2F sqZero rand0 silParamsOpen 0 0
      (tick2F sqZero rand0 silParamsOpen 0 0 (FVec3.ofVec3 0) (FVec3.ofVec3 0)).1
      (tick2F sqZero rand0 silParamsOpen 0 0 (FVec3.ofVec3 0) (FVec3.ofVec3 0)).2).2.x =
      none ∧
    (tick2F sqZero rand0 silParamsOpen 0 0
      (tick2F sqZero rand0 silParamsOpen 0 0 (FVec3.ofVec3 0) (FVec3.ofVec3 0)).1
      (tick2F sqZero rand0 silParamsOpen 0 0 (FVec3.ofVec3 0) (FVec3.ofVec3 0)).2).1.x =
      none := by
  refine ⟨?_, ?_, ?_, ?_⟩ <;>
    simp +decide [tick2F, handPhase2F, handForce2F, homePhase2F, chaosPhase2F,
      alignPhase2F, boundAxis2F, fnormSq, fadd, fsub, fmul, fdiv, fsqrt, fltLt, fabsGt,
      fsign, fround, FVec3.ofVec3, hOpenOrigin, scaledPalm2, silParamsOpen, sqZero, rand0,
      Vec3.zero_def, PHYSICS.attractFalloff, PHYSICS.repelFalloff, PHYSICS.boundaryLimit,
      mul_zero, zero_mul, add_zero, zero_add, sub_zero,
      show ¬ ((1 : ℚ)/10 < 0) by norm_num]

end GestureFlow
